import Mathlib

/-!
Verification of `src/main.py` of PersonalNewsAgent: a single-file script
that fetches two RSS feeds, summarises them through a tool-calling LLM
agent, and posts the result to a Telegram chat.

External collaborators (the feed parser, the HTML stripper, the HTTP layer
and the LLM agent runtime) are modelled as oracle parameters; everything
else is translated directly from the Python source.
-/

namespace NewsAgent

/-- Python string slicing `s[:n]`: the first `n` characters of `s`. -/
def pyTake (n : Nat) (s : String) : String := ⟨s.data.take n⟩

/-- Characters stripped by Python `str.strip()` with no argument. -/
def isPySpace (c : Char) : Bool :=
  c = ' ' || c = '\t' || c = '\n' || c = '\r' || c = '\x0b' || c = '\x0c'

/-- Python `str.strip()`: drop whitespace from both ends. -/
def pyStrip (s : String) : String :=
  ⟨((s.data.dropWhile isPySpace).reverse.dropWhile isPySpace).reverse⟩

/-- `leadsWith p l` holds when the char list `p` is an initial segment of `l`. -/
def leadsWith : List Char → List Char → Bool
  | [], _ => true
  | _ :: _, [] => false
  | p :: ps, c :: cs => p = c && leadsWith ps cs

/-- Contiguous-occurrence test on char lists (Python `pat in s`). -/
def listContains (pat : List Char) : List Char → Bool
  | [] => leadsWith pat []
  | c :: t => leadsWith pat (c :: t) || listContains pat t

/-- Python `pat in s` on strings. -/
def strContains (s pat : String) : Bool := listContains pat.data s.data

/-- Python `s.lower()` (all source strings are ASCII, where the two agree). -/
def pyLower (s : String) : String := ⟨s.data.map Char.toLower⟩

/-- Python `pat in s.lower()` for a lowercase pattern `pat`. -/
def containsCI (s pat : String) : Bool := strContains (pyLower s) pat

/-- Tag-removal automaton: `inTag` records whether we are inside `<...>`.
Characters inside a tag span are dropped; an unclosed tag swallows the
rest of the input. -/
def stripMarkupAux : Bool → List Char → List Char
  | _, [] => []
  | false, c :: cs =>
      if c = '<' then stripMarkupAux true cs else c :: stripMarkupAux false cs
  | true, c :: cs =>
      if c = '>' then stripMarkupAux false cs else stripMarkupAux true cs

/-- Modelled from the spec: the HTML-stripping library call
`BeautifulSoup(desc, "html.parser").get_text()` is an external collaborator
(out of scope per the spec); it is modelled as removing every markup tag
span `<...>` and returning the remaining plain text. -/
def stripMarkup (s : String) : String := ⟨stripMarkupAux false s.data⟩

/-- A parsed feed entry as the fetcher consumes it: `title` and `link` are
accessed directly (`entry.title`, `entry.link`); the description is read
with `entry.get('description', '')`, hence optional. -/
structure Entry where
  title : String
  link : String
  description : Option String
deriving Repr, DecidableEq

/-- The outcome of fetching and parsing one feed source: either the
fetch/parse raised (any exception) or it produced a list of entries. -/
def FeedResult := Except Unit (List Entry)

/-- First hardcoded feed URL. -/
def livemintURL : String := "http://livemint.com/rss/markets"

/-- Second hardcoded feed URL. -/
def etURL : String := "https://economictimes.indiatimes.com/rssfeeds/1977021501.cms"

/-- The fixed, hardcoded feed URL list (`rss_urls` in `main.py`). -/
def rss_urls : List String := [livemintURL, etURL]

/-- `source = "Livemint" if "livemint" in url else "ET"`. -/
def sourceLabel (url : String) : String :=
  if strContains url "livemint" then "Livemint" else "ET"

/-- The excerpt embedded in a record: markup-stripped description,
truncated to the first 300 characters (`desc[:300]` after `get_text()`). -/
def excerpt (e : Entry) : String :=
  pyTake 300 (stripMarkup (e.description.getD ""))

/-- One rendered record, exactly the f-string of `main.py` line 47. -/
def renderItem (source : String) (e : Entry) : String :=
  "SOURCE: " ++ source ++ "\nTITLE: " ++ e.title ++ "\nLINK: " ++ e.link ++
    "\nCONTENT: " ++ excerpt e ++ "\n---"

/-- Records contributed by one source: on a per-source error the source is
skipped (`except: continue`); otherwise the first 6 entries
(`feed.entries[:6]`) are rendered in feed order. -/
def processSource (url : String) (r : Except Unit (List Entry)) : List String :=
  match r with
  | .error _ => []
  | .ok entries => (entries.take 6).map (renderItem (sourceLabel url))

/-- The full `news_items` list accumulated over `rss_urls` in list order,
given a `world` oracle describing each URL's fetch/parse outcome. -/
def newsItems (world : String → Except Unit (List Entry)) : List String :=
  rss_urls.flatMap (fun url => processSource url (world url))

/-- `fetch_indian_market_rss`: join all records with a newline, or return
the fixed sentinel if no record was produced. -/
def fetch_indian_market_rss (world : String → Except Unit (List Entry)) : String :=
  let items := newsItems world
  if items.isEmpty then "No current news found." else String.intercalate "\n" items

/-- The outcome of one `requests.post` to the Telegram endpoint: a
transport error (exception text) or an HTTP status code. -/
def PostResult := Except String Nat

/-- What one call to the Notifier did: how many HTTP deliveries it
attempted, whether it logged a delivery error, and whether it raised to
its caller. -/
structure SendOutcome where
  attempts : Nat
  loggedError : Bool
  raised : Bool
deriving Repr, DecidableEq

/-- `send_to_telegram`: posts once; `raise_for_status` raises on a 4xx or
5xx status; any exception is caught and logged (`except Exception as e`),
and nothing is retried or re-raised. -/
def send_to_telegram (post : Except String Nat) : SendOutcome :=
  match post with
  | .error _ => ⟨1, true, false⟩
  | .ok status =>
      if 400 ≤ status && status < 600 then ⟨1, true, false⟩ else ⟨1, false, false⟩

/-- The empty/no-news notice body substituted by `run_agent` (line 107). -/
def noticeBody (date : String) : String :=
  "⚠️ <b>Notice:</b> No significant market news found in the RSS feeds for " ++
    date ++ "."

/-- The success-path outbound message (line 111). -/
def finalMessage (date body : String) : String :=
  "📊 <b>Market Intelligence Report</b>\n" ++ date ++ "\n\n" ++ body

/-- The error-path outbound message (line 116), with the exception text
truncated to 200 characters. -/
def errorMessage (date errText : String) : String :=
  "❌ <b>System Error Alert</b>\n\n<b>Date:</b> " ++ date ++
    "\n<b>Error Detail:</b> <code>" ++ pyTake 200 errText ++
    "</code>\n\nPlease check GitHub Actions logs for details."

/-- The "No News" check of lines 104-109: after stripping, an empty output
or one whose lowercase form contains "no news" or "no current news" is
replaced with the notice; otherwise the stripped output stands. -/
def report_body (date rawOutput : String) : String :=
  let output := pyStrip rawOutput
  if output = "" || containsCI output "no news" || containsCI output "no current news"
  then noticeBody date else output

/-- The outcome of `agent_executor.invoke`: an exception (its `str(e)`
text) or the value of `response.get('output', '')`. -/
def AgentResult := Except String String

/-- The single outbound message `run_agent` builds for a given run date
and agent outcome (success path lines 102-112, error path lines 114-118). -/
def run_agent_message (date : String) (agentResult : Except String String) : String :=
  match agentResult with
  | .ok rawOutput => finalMessage date (report_body date rawOutput)
  | .error e => errorMessage date e

/-- The messages `run_agent` hands to `send_to_telegram`, in order: each
branch of the try/except calls the Notifier exactly once, and
`send_to_telegram` itself never raises back into `run_agent`. -/
def run_agent_sends (date : String) (agentResult : Except String String) : List String :=
  match agentResult with
  | .ok rawOutput => [finalMessage date (report_body date rawOutput)]
  | .error e => [errorMessage date e]

/-- The process environment as the script reads it via `os.getenv`. -/
structure Env where
  telegramToken : Option String
  chatId : Option String
  groqApiKey : Option String

/-- The startup check of lines 17-23: Python `not x` is true for both
`None` and the empty string; only the Telegram token and chat id are
tested, the Groq key is read but never checked. -/
def startup_check (telegramToken chatId : Option String) : Except String Unit :=
  if telegramToken.getD "" = "" || chatId.getD "" = "" then
    .error "Missing environment variables! Check your GitHub Secrets."
  else .ok ()

/-- The whole program: the startup check runs at import time, before any
network activity; only if it passes does `run_agent` run and send its
messages. The error value carries the fatal startup message and an empty
send log. -/
def main_program (env : Env) (date : String)
    (agentResult : Except String String) : Except String (List String) :=
  match startup_check env.telegramToken env.chatId with
  | .error e => .error e
  | .ok _ => .ok (run_agent_sends date agentResult)

/-! ## Helper lemmas -/

theorem leadsWith_append (p r : List Char) : leadsWith p (p ++ r) = true := by
  induction p with
  | nil => rfl
  | cons c cs ih => simp [leadsWith, ih]

theorem listContains_of_leadsWith (p l : List Char) (h : leadsWith p l = true) :
    listContains p l = true := by
  cases l with
  | nil => simpa [listContains] using h
  | cons c t => simp [listContains, h]

theorem listContains_append_left (a p m : List Char)
    (h : listContains p m = true) : listContains p (a ++ m) = true := by
  induction a with
  | nil => simpa using h
  | cons c t ih => simp [listContains, ih]

theorem listContains_at (a p r : List Char) :
    listContains p (a ++ (p ++ r)) = true :=
  listContains_append_left a p (p ++ r)
    (listContains_of_leadsWith p (p ++ r) (leadsWith_append p r))

theorem char_not_mem_stripMarkupAux (b : Bool) (l : List Char) :
    '<' ∉ stripMarkupAux b l := by
  induction l generalizing b with
  | nil => cases b <;> simp [stripMarkupAux]
  | cons c cs ih =>
      cases b with
      | false =>
          by_cases hc : c = '<'
          · simpa [stripMarkupAux, hc] using ih true
          · simpa [stripMarkupAux, hc] using ⟨fun h => hc h.symm, ih false⟩
      | true =>
          by_cases hc : c = '>'
          · simpa [stripMarkupAux, hc] using ih false
          · simpa [stripMarkupAux, hc] using ih true

theorem pyTake_length_le (n : Nat) (s : String) : (pyTake n s).length ≤ n := by
  have h : (pyTake n s).length = (s.data.take n).length := rfl
  rw [h, List.length_take]
  omega

theorem sourceLabel_livemint : sourceLabel livemintURL = "Livemint" := by decide

theorem sourceLabel_et : sourceLabel etURL = "ET" := by decide

/-! ## Claim theorems -/

/-- C1: for every run of the feed fetcher over the fixed two-source URL
list, if fetching or parsing one source raises any error, that source is
skipped and the batch is exactly the records produced from the other
source (hence contains every one of them); a per-source failure never
aborts the batch — `newsItems`/`fetch_indian_market_rss` stay total. -/
theorem fetch_partial_failure_isolation
    (w : String → Except Unit (List Entry)) :
    (w livemintURL = .error () → newsItems w = processSource etURL (w etURL)) ∧
    (w etURL = .error () → newsItems w = processSource livemintURL (w livemintURL)) := by
  constructor <;> intro hw <;> simp [newsItems, rss_urls, processSource, hw]

theorem fetch_partial_failure_isolation_witness :
    newsItems
        (fun u => if u = livemintURL then Except.error () else Except.ok [⟨"T", "L", none⟩]) =
      processSource etURL (Except.ok [⟨"T", "L", none⟩]) := by
  have hne : etURL = livemintURL ↔ False := by
    constructor
    · intro h; exact absurd h (by decide)
    · intro h; exact h.elim
  have h :=
    (fetch_partial_failure_isolation
        (fun u => if u = livemintURL then Except.error () else Except.ok [⟨"T", "L", none⟩])).1
      (by simp)
  simpa [hne] using h

/-- C2: when each of the two sources yields at least 6 entries, the batch
is exactly the first 6 Livemint records followed by the first 6 ET
records, each block in entry order — 12 records in all, 6 per source,
in source-list then entry order, with no re-sorting or deduplication. -/
theorem fetch_full_feeds_batch
    (w : String → Except Unit (List Entry)) (es0 es1 : List Entry)
    (h0 : w livemintURL = .ok es0) (h1 : w etURL = .ok es1)
    (hl0 : 6 ≤ es0.length) (hl1 : 6 ≤ es1.length) :
    newsItems w =
      (es0.take 6).map (renderItem "Livemint") ++ (es1.take 6).map (renderItem "ET") ∧
    ((es0.take 6).map (renderItem "Livemint")).length = 6 ∧
    ((es1.take 6).map (renderItem "ET")).length = 6 ∧
    (newsItems w).length = 12 := by
  have hA : newsItems w =
      (es0.take 6).map (renderItem "Livemint") ++ (es1.take 6).map (renderItem "ET") := by
    simp [newsItems, rss_urls, processSource, h0, h1,
      sourceLabel_livemint, sourceLabel_et]
  have hL0 : ((es0.take 6).map (renderItem "Livemint")).length = 6 := by
    simp [List.length_take]
    omega
  have hL1 : ((es1.take 6).map (renderItem "ET")).length = 6 := by
    simp [List.length_take]
    omega
  refine ⟨hA, hL0, hL1, ?_⟩
  rw [hA]
  simp [hL0, hL1]
  omega

theorem fetch_full_feeds_batch_witness :
    (newsItems (fun u =>
        if u = livemintURL then Except.ok (List.replicate 6 ⟨"T", "L", none⟩)
        else Except.ok (List.replicate 7 ⟨"S", "M", none⟩))).length = 12 := by
  have hne : etURL = livemintURL ↔ False := by
    constructor
    · intro h; exact absurd h (by decide)
    · intro h; exact h.elim
  exact (fetch_full_feeds_batch
      (fun u =>
        if u = livemintURL then Except.ok (List.replicate 6 ⟨"T", "L", none⟩)
        else Except.ok (List.replicate 7 ⟨"S", "M", none⟩))
      (List.replicate 6 ⟨"T", "L", none⟩) (List.replicate 7 ⟨"S", "M", none⟩)
      (by simp) (by simp [hne]) (by simp) (by simp)).2.2.2

/-- C3: for every feed entry — whatever markup, nested or malformed, its
description holds — the record's excerpt is the markup-stripped plain
text of the description truncated to the first 300 characters, so it is
at most 300 characters long and contains no markup tag (no tag-opening
character survives the stripping). -/
theorem excerpt_plain_and_bounded (e : Entry) :
    excerpt e = pyTake 300 (stripMarkup (e.description.getD "")) ∧
    (excerpt e).length ≤ 300 ∧
    '<' ∉ (excerpt e).data := by
  refine ⟨rfl, pyTake_length_le _ _, ?_⟩
  intro hmem
  have hsub : (excerpt e).data ⊆ (stripMarkup (e.description.getD "")).data :=
    List.take_subset 300 _
  exact char_not_mem_stripMarkupAux false _ (hsub hmem)

/-- C4: if both sources fail or yield zero entries, the fetcher returns
the fixed sentinel string, and when the agent relays that fetch result as
its output, the Orchestrator's final outbound message is the "no
significant market news" notice with the run date substituted in. -/
theorem empty_sources_sentinel_and_notice
    (w : String → Except Unit (List Entry)) (date : String)
    (h : ∀ u ∈ rss_urls, w u = .error () ∨ w u = .ok []) :
    fetch_indian_market_rss w = "No current news found." ∧
    run_agent_message date (.ok (fetch_indian_market_rss w)) =
      finalMessage date (noticeBody date) := by
  have h0 := h livemintURL (by simp [rss_urls])
  have h1 := h etURL (by simp [rss_urls])
  have hempty : newsItems w = [] := by
    rcases h0 with h0 | h0 <;> rcases h1 with h1 | h1 <;>
      simp [newsItems, rss_urls, processSource, h0, h1]
  have hfetch : fetch_indian_market_rss w = "No current news found." := by
    simp [fetch_indian_market_rss, hempty]
  have hcond : (pyStrip "No current news found." = "" ||
      containsCI (pyStrip "No current news found.") "no news" ||
      containsCI (pyStrip "No current news found.") "no current news") = true := by
    decide
  have hbody : report_body date "No current news found." = noticeBody date := by
    simp only [report_body]
    simp only [hcond, if_true]
  refine ⟨hfetch, ?_⟩
  rw [hfetch]
  simp [run_agent_message, hbody]

theorem empty_sources_sentinel_and_notice_witness :
    fetch_indian_market_rss (fun _ => Except.error ()) = "No current news found." ∧
    run_agent_message "Jan 01, 2026"
        (.ok (fetch_indian_market_rss (fun _ => Except.error ()))) =
      finalMessage "Jan 01, 2026" (noticeBody "Jan 01, 2026") :=
  empty_sources_sentinel_and_notice (fun _ => Except.error ()) "Jan 01, 2026"
    (fun _ _ => Or.inl rfl)

/-- C5: if the bot token or the chat id environment variable is absent
(or empty — Python truthiness), the program stops with the fatal startup
error before `run_agent` ever runs, so no network activity and no
notification happens; when both are present the run proceeds whatever the
Groq API key holds (including absent), since `startup_check` never reads
it. -/
theorem startup_requires_telegram_env (env : Env) (date : String)
    (r : Except String String) :
    ((env.telegramToken.getD "" = "" ∨ env.chatId.getD "" = "") →
      main_program env date r =
        .error "Missing environment variables! Check your GitHub Secrets.") ∧
    (env.telegramToken.getD "" ≠ "" → env.chatId.getD "" ≠ "" →
      main_program env date r = .ok (run_agent_sends date r)) := by
  constructor
  · intro h
    rcases h with h | h <;> simp [main_program, startup_check, h]
  · intro h1 h2
    simp [main_program, startup_check, h1, h2]

theorem startup_requires_telegram_env_witness :
    main_program ⟨none, some "123", some "gsk_key"⟩ "Jan 01, 2026" (.ok "report") =
      .error "Missing environment variables! Check your GitHub Secrets." ∧
    main_program ⟨some "tok", some "123", none⟩ "Jan 01, 2026" (.ok "report") =
      .ok (run_agent_sends "Jan 01, 2026" (.ok "report")) :=
  ⟨(startup_requires_telegram_env ⟨none, some "123", some "gsk_key"⟩
      "Jan 01, 2026" (.ok "report")).1 (Or.inl rfl),
   (startup_requires_telegram_env ⟨some "tok", some "123", none⟩
      "Jan 01, 2026" (.ok "report")).2 (by decide) (by decide)⟩

/-- C6: when the agent invocation raises, the Orchestrator hands exactly
one message to the Notifier; that message contains the literal substring
"System Error Alert" together with the exception text truncated to at
most 200 characters. -/
theorem error_alert_delivered_once (date e : String) :
    run_agent_sends date (.error e) = [errorMessage date e] ∧
    strContains (errorMessage date e) "System Error Alert" = true ∧
    strContains (errorMessage date e) (pyTake 200 e) = true ∧
    (pyTake 200 e).length ≤ 200 := by
  have hsplit : ("❌ <b>System Error Alert</b>\n\n<b>Date:</b> " : String).data =
      "❌ <b>".data ++ "System Error Alert".data ++ "</b>\n\n<b>Date:</b> ".data := by
    decide
  have h1 : strContains (errorMessage date e) "System Error Alert" = true := by
    have hdata : (errorMessage date e).data =
        "❌ <b>".data ++ ("System Error Alert".data ++
          ("</b>\n\n<b>Date:</b> ".data ++ (date.data ++
            ("\n<b>Error Detail:</b> <code>".data ++ ((pyTake 200 e).data ++
              "</code>\n\nPlease check GitHub Actions logs for details.".data))))) := by
      simp [errorMessage, String.data_append, hsplit]
    unfold strContains
    rw [hdata]
    exact listContains_at _ _ _
  have h2 : strContains (errorMessage date e) (pyTake 200 e) = true := by
    have hdata : (errorMessage date e).data =
        ("❌ <b>System Error Alert</b>\n\n<b>Date:</b> ".data ++ (date.data ++
          "\n<b>Error Detail:</b> <code>".data)) ++ ((pyTake 200 e).data ++
            "</code>\n\nPlease check GitHub Actions logs for details.".data) := by
      simp [errorMessage, String.data_append]
    unfold strContains
    rw [hdata]
    exact listContains_at _ _ _
  exact ⟨rfl, h1, h2, pyTake_length_le 200 e⟩

/-- C7: the Notifier issues exactly one HTTP attempt, never raises back
to its caller, and logs (rather than propagates) any transport error or
non-success status; there is no retry. -/
theorem notifier_total_single_attempt (post : Except String Nat) :
    (send_to_telegram post).raised = false ∧
    (send_to_telegram post).attempts = 1 ∧
    (∀ e, post = .error e → (send_to_telegram post).loggedError = true) ∧
    (∀ n, post = .ok n → 400 ≤ n → n < 600 →
      (send_to_telegram post).loggedError = true) := by
  refine ⟨?_, ?_, ?_, ?_⟩
  · cases post with
    | error e => rfl
    | ok n =>
        simp only [send_to_telegram]
        split <;> rfl
  · cases post with
    | error e => rfl
    | ok n =>
        simp only [send_to_telegram]
        split <;> rfl
  · intro e h
    subst h
    rfl
  · intro n h h4 h6
    subst h
    simp only [send_to_telegram]
    rw [if_pos (by simp [h4, h6])]

theorem notifier_total_single_attempt_witness :
    ((send_to_telegram (Except.error "connection reset")).raised = false ∧
      (send_to_telegram (Except.error "connection reset")).loggedError = true) ∧
    (send_to_telegram (Except.ok 500)).loggedError = true :=
  ⟨⟨(notifier_total_single_attempt (Except.error "connection reset")).1,
    (notifier_total_single_attempt (Except.error "connection reset")).2.2.1
      "connection reset" rfl⟩,
   (notifier_total_single_attempt (Except.ok 500)).2.2.2 500 rfl
     (by decide) (by decide)⟩

/-- C8: every run of the Orchestrator — agent success, empty output, or
exception — hands exactly one message to the Notifier before
terminating; no path sends zero or more than one. -/
theorem exactly_one_notification (date : String) (r : Except String String) :
    (run_agent_sends date r).length = 1 := by
  cases r <;> rfl

/-- C9: the final message is a pure function of the date label and the
agent outcome: two invocations with identical fetch/model responses and
the same date produce byte-identical message text. -/
theorem run_message_deterministic (d1 d2 : String) (r1 r2 : Except String String)
    (hd : d1 = d2) (hr : r1 = r2) :
    run_agent_message d1 r1 = run_agent_message d2 r2 := by
  rw [hd, hr]

theorem run_message_deterministic_witness :
    run_agent_message "Jan 01, 2026" (.ok "Banking: RBI held rates.") =
      run_agent_message "Jan 01, 2026" (.ok "Banking: RBI held rates.") :=
  run_message_deterministic "Jan 01, 2026" "Jan 01, 2026"
    (.ok "Banking: RBI held rates.") (.ok "Banking: RBI held rates.") rfl rfl

/-- C10: whenever the stripped agent output is empty or contains
"no news" or "no current news" in any letter case — even as a passing
phrase inside a legitimate non-empty report — the Orchestrator discards
the output and substitutes the "no significant market news" notice. -/
theorem no_news_phrase_overrides_output (date rawOutput : String)
    (h : pyStrip rawOutput = "" ∨
         containsCI (pyStrip rawOutput) "no news" = true ∨
         containsCI (pyStrip rawOutput) "no current news" = true) :
    run_agent_message date (.ok rawOutput) = finalMessage date (noticeBody date) := by
  have hbody : report_body date rawOutput = noticeBody date := by
    simp only [report_body]
    rcases h with h | h | h <;> simp [h]
  simp [run_agent_message, hbody]

theorem no_news_phrase_overrides_output_witness :
    run_agent_message "Jan 01, 2026"
        (.ok "Banking: RBI kept rates steady; there is no news on further cuts.") =
      finalMessage "Jan 01, 2026" (noticeBody "Jan 01, 2026") :=
  no_news_phrase_overrides_output "Jan 01, 2026"
    "Banking: RBI kept rates steady; there is no news on further cuts."
    (Or.inr (Or.inl (by decide)))

end NewsAgent
